import Mathlib

/-!
Shallow embedding of `src/layer_store.py` (the three layer-store variants of
a pixel layer store) and verification of its specification.

Conventions of the embedding:
- A colour is an integer RGB triple, as in the Python code's tuples.
- `Layer` is the external collaborator of §6 of the spec: a `name`, and a pure
  `apply` colour function.  Python compares layer objects by object identity;
  identity is modelled by an `id` field unique per object.
- Python code that raises (KeyError, IndexError, NameError, AttributeError,
  TypeError) or that does not parse (the incomplete assignment on line 76) is
  modelled by `Option`: `none` is a raised/failed call, `some v` a normal
  return of `v`.
- Mutating methods return the pair (python return value, new state).
-/

/-- A colour: an RGB triple of integers, as the Python code's 3-tuples. -/
abbrev Color := Int × Int × Int

/-- The external `Layer` collaborator (`layer_util.Layer`, not under `src/`).
Modelled from the spec: §6 gives it an immutable `name` identity and a pure
`apply(baseColor, timestamp, x, y) -> color` function.  The `id` field models
Python object identity (default `==`/`!=` on layer objects), unique per
constructed object. -/
structure Layer where
  id : Nat
  name : String
  apply : Color → Nat → Nat → Nat → Color

/- ------------------------------------------------------------------ -/
/- SetLayerStore (`src/layer_store.py` lines 44-79)                    -/
/- ------------------------------------------------------------------ -/

/-- State of `SetLayerStore` (lines 51-54): an optional held layer and the
`special_mode` invert flag. -/
structure SetLayerStore where
  layer : Option Layer
  special_mode : Bool

/-- `SetLayerStore.__init__` (lines 51-54). -/
def SetLayerStore.init : SetLayerStore := ⟨none, false⟩

/-- `SetLayerStore.add` (lines 56-60): set the layer and return `True` when
the argument differs (by object identity, modelled via `id`) from the held
one, else return `False`. -/
def SetLayerStore.add (s : SetLayerStore) (layer : Layer) :
    Bool × SetLayerStore :=
  if s.layer.map Layer.id ≠ some layer.id then
    (true, { s with layer := some layer })
  else
    (false, s)

/-- `SetLayerStore.erase` (lines 62-64): unconditionally sets the layer to
`None` and returns `True`, whatever the argument and even when the store is
already empty. -/
def SetLayerStore.erase (s : SetLayerStore) (_layer : Layer) :
    Bool × SetLayerStore :=
  (true, { s with layer := none })

/-- `SetLayerStore.special` (lines 67-68): toggles `special_mode`. -/
def SetLayerStore.special (s : SetLayerStore) : SetLayerStore :=
  { s with special_mode := !s.special_mode }

/-- `SetLayerStore.get_color` (lines 71-79).
If a layer is held: returns `layer.apply(start, timestamp, x, y)` directly —
`special_mode` is never consulted on this path, no inversion is applied.
If no layer is held and `special_mode` is true: line 76 is the incomplete
assignment `self.layer = ` followed by a newline — a syntax error — so this
branch can never return a value; modelled as `none`.
Otherwise: returns the base colour `start`. -/
def SetLayerStore.get_color (s : SetLayerStore) (start : Color)
    (timestamp x y : Nat) : Option Color :=
  match s.layer with
  | some layer => some (layer.apply start timestamp x y)
  | none =>
      if s.special_mode = true then
        none
      else
        some start

/- ------------------------------------------------------------------ -/
/- CircularQueue and AdditiveLayerStore (lines 81-128)                  -/
/- ------------------------------------------------------------------ -/

/-- Modelled from the spec: `data_structures.queue_adt.CircularQueue` is not
under `src/`.  Spec §6: a bounded FIFO queue ADT — `append` rejects when
full, `serve` removes the front and fails when empty, iteration is in
insertion order, with current length and fullness observable.  Modelled as a
list (front at the head) together with the fixed capacity. -/
structure CircularQueue where
  capacity : Nat
  items : List Layer

/-- Queue fullness test. -/
def CircularQueue.is_full (q : CircularQueue) : Bool :=
  q.items.length == q.capacity

/-- Queue emptiness test. -/
def CircularQueue.is_empty (q : CircularQueue) : Bool :=
  q.items.isEmpty

/-- Append to the back; fails (`none`) when the queue is full. -/
def CircularQueue.append (q : CircularQueue) (layer : Layer) :
    Option CircularQueue :=
  if q.items.length < q.capacity then
    some { q with items := q.items ++ [layer] }
  else
    none

/-- Serve (remove and return) the front; fails (`none`) when empty. -/
def CircularQueue.serve (q : CircularQueue) : Option (Layer × CircularQueue) :=
  match q.items with
  | [] => none
  | x :: xs => some (x, { q with items := xs })

/-- State of `AdditiveLayerStore` (lines 88-90): the backing queue. -/
structure AdditiveLayerStore where
  layers : CircularQueue

/-- `AdditiveLayerStore.__init__` (lines 88-90): the body evaluates
`CircularQueue(capacity)`, but no name `capacity` is in scope — the
constructor parameter is named `max_layers` — so every construction raises
`NameError`.  Modelled as `none` for every argument. -/
def AdditiveLayerStore.init (_max_layers : Nat) :
    Option AdditiveLayerStore :=
  none

/-- `AdditiveLayerStore.add` (lines 92-96): returns `False` (no change) when
the queue is full, otherwise appends to the back and returns `True` (the
inner `append` can itself still reject, hence the `Option`). -/
def AdditiveLayerStore.add (s : AdditiveLayerStore) (layer : Layer) :
    Option (Bool × AdditiveLayerStore) :=
  if s.layers.is_full then
    some (false, s)
  else
    (s.layers.append layer).map fun q => (true, ⟨q⟩)

/-- `AdditiveLayerStore.get_color` (lines 98-113).
The loop body evaluates `layer.start <= start` — comparing with the base
colour tuple — and `layer.get_pixel(...)`, but a `Layer` (spec §6) has only
`name` and `apply`: on any non-empty store the first iteration raises
(AttributeError/TypeError), modelled as `none`.  On an empty store the loop
is skipped, the accumulator `a` stays `0`, and the `a == 0` branch returns
`(0, 0, 0)` — not the base colour. -/
def AdditiveLayerStore.get_color (s : AdditiveLayerStore) (_start : Color)
    (_timestamp _x _y : Nat) : Option Color :=
  match s.layers.items with
  | [] => some (0, 0, 0)
  | _ :: _ => none

/-- `AdditiveLayerStore.erase` (lines 115-119): returns `False` when the
queue is empty; otherwise serves (discards) the front — line 118 is the
no-effect comparison `layer == self.layers.serve()` — and returns `True`,
irrespective of the `layer` argument. -/
def AdditiveLayerStore.erase (s : AdditiveLayerStore) (_layer : Layer) :
    Bool × AdditiveLayerStore :=
  match s.layers.items with
  | [] => (false, s)
  | _ :: xs => (true, ⟨{ s.layers with items := xs }⟩)

/-- The `while` loop of `AdditiveLayerStore.special` (lines 122-125): while
the queue is non-empty, serve the front, append it to the local list
`layers`, and then reverse `layers` — the `layers.reverse()` call is inside
the loop body, executed after every single append. -/
def specialLoop : List Layer → List Layer → List Layer
  | [], acc => acc
  | x :: xs, acc => specialLoop xs ((acc ++ [x]).reverse)

/-- `AdditiveLayerStore.special` (lines 121-128): drains the queue through
`specialLoop`, then re-appends the resulting list front to back.  Draining
empties the queue and `specialLoop` preserves the number of elements, so the
re-appending loop never hits a full queue and the final queue holds exactly
`specialLoop s.layers.items []`. -/
def AdditiveLayerStore.special (s : AdditiveLayerStore) :
    AdditiveLayerStore :=
  ⟨{ s.layers with items := specialLoop s.layers.items [] }⟩

/- ------------------------------------------------------------------ -/
/- SequenceLayerStore (lines 130-163)                                  -/
/- ------------------------------------------------------------------ -/

/-- State of `SequenceLayerStore` (lines 139-141): the Python `set` of
applied layer *names* (strings — `add` inserts `layer.name`), modelled as a
`Finset String`. -/
structure SequenceLayerStore where
  applied_layers : Finset String
deriving DecidableEq

/-- `SequenceLayerStore.__init__` (lines 139-141). -/
def SequenceLayerStore.init : SequenceLayerStore := ⟨∅⟩

/-- `SequenceLayerStore.add` (lines 143-148): inserts `layer.name` and
returns `True` when the name is not yet applied, else returns `False`. -/
def SequenceLayerStore.add (s : SequenceLayerStore) (layer : Layer) :
    Bool × SequenceLayerStore :=
  if layer.name ∉ s.applied_layers then
    (true, ⟨insert layer.name s.applied_layers⟩)
  else
    (false, s)

/-- `SequenceLayerStore.get_color` (lines 150-155): iterates over the set of
applied *names* (strings) and dereferences `layer.name` on each — a string
has no `name` attribute, so any non-empty set raises `AttributeError` on the
first iteration (and the call `layer.apply(start, timestamp, x, y, color)`
would not match `Layer.apply` either); modelled as `none`.  On an empty set
the loop is skipped and the base colour `start` is returned. -/
def SequenceLayerStore.get_color (s : SequenceLayerStore) (start : Color)
    (_timestamp _x _y : Nat) : Option Color :=
  if s.applied_layers = ∅ then some start else none

/-- `SequenceLayerStore.erase` (lines 157-159): `set.remove(layer.name)`
removes the name and the method returns `True` when the name is applied;
`set.remove` raises `KeyError` (modelled as `none`) when it is not. -/
def SequenceLayerStore.erase (s : SequenceLayerStore) (layer : Layer) :
    Option (Bool × SequenceLayerStore) :=
  if layer.name ∈ s.applied_layers then
    some (true, ⟨s.applied_layers.erase layer.name⟩)
  else
    none

/-- `SequenceLayerStore.special` (lines 161-163): indexes
`sorted(self.applied_layers)[len(self.applied_layers) // 2]` — ascending
sorted order, 0-based index `card / 2` — and removes that name.  On an empty
set the indexing raises `IndexError`, modelled as `none`. -/
def SequenceLayerStore.special (s : SequenceLayerStore) :
    Option SequenceLayerStore :=
  match (s.applied_layers.sort (· ≤ ·)).get? (s.applied_layers.card / 2) with
  | some median_name => some ⟨s.applied_layers.erase median_name⟩
  | none => none

/- ------------------------------------------------------------------ -/
/- Concrete layers used as test inputs                                 -/
/- ------------------------------------------------------------------ -/

/-- A concrete layer named "A" (identity colour effect). -/
def layerA : Layer := ⟨0, "A", fun c _ _ _ => c⟩

/-- A concrete layer named "B" (identity colour effect). -/
def layerB : Layer := ⟨1, "B", fun c _ _ _ => c⟩

/-- A concrete layer named "C" (identity colour effect). -/
def layerC : Layer := ⟨2, "C", fun c _ _ _ => c⟩

/-- A concrete layer whose effect is the constant colour `(10, 10, 10)`. -/
def layerRed : Layer := ⟨3, "red", fun _ _ _ _ => (10, 10, 10)⟩

/-- A capacity-3 additive store holding `[A, B, C]` (A oldest, C newest). -/
def store3 : AdditiveLayerStore := ⟨⟨3, [layerA, layerB, layerC]⟩⟩

/- ------------------------------------------------------------------ -/
/- Helper lemmas                                                       -/
/- ------------------------------------------------------------------ -/

/-- Sorting the four-name set used in the C3 test: ascending order is
`["a", "b", "c", "d"]`. -/
theorem sorted_abcd :
    ({"a", "b", "c", "d"} : Finset String).sort (· ≤ ·) =
      ["a", "b", "c", "d"] := by
  have hab : ("a" : String) ≤ "b" := by rw [String.le_iff_toList_le]; decide
  have hac : ("a" : String) ≤ "c" := by rw [String.le_iff_toList_le]; decide
  have had : ("a" : String) ≤ "d" := by rw [String.le_iff_toList_le]; decide
  have hbc : ("b" : String) ≤ "c" := by rw [String.le_iff_toList_le]; decide
  have hbd : ("b" : String) ≤ "d" := by rw [String.le_iff_toList_le]; decide
  have hcd : ("c" : String) ≤ "d" := by rw [String.le_iff_toList_le]; decide
  have h1 : ∀ b ∈ ({"b", "c", "d"} : Finset String), ("a" : String) ≤ b := by
    simp only [Finset.mem_insert, Finset.mem_singleton]
    rintro b (rfl | rfl | rfl)
    · exact hab
    · exact hac
    · exact had
  have h2 : ∀ b ∈ ({"c", "d"} : Finset String), ("b" : String) ≤ b := by
    simp only [Finset.mem_insert, Finset.mem_singleton]
    rintro b (rfl | rfl)
    · exact hbc
    · exact hbd
  have h3 : ∀ b ∈ ({"d"} : Finset String), ("c" : String) ≤ b := by
    simp only [Finset.mem_singleton]
    rintro b rfl
    exact hcd
  rw [Finset.sort_insert (· ≤ ·) h1 (by decide),
    Finset.sort_insert (· ≤ ·) h2 (by decide),
    Finset.sort_insert (· ≤ ·) h3 (by decide), Finset.sort_singleton]

/- ------------------------------------------------------------------ -/
/- Claim theorems                                                      -/
/- ------------------------------------------------------------------ -/

/-- C1: the claim says `AdditiveLayerStore.get_color` on an empty store
returns the base colour unchanged.  The code instead takes the `a == 0`
branch and returns `(0, 0, 0)`: at base colour `(100, 100, 100)` the empty
store yields `(0, 0, 0)`, not the base — and on non-empty stores the
averaging loop raises rather than folding `Layer.apply`. -/
theorem additive_get_color_empty_not_base :
    AdditiveLayerStore.get_color ⟨⟨3, []⟩⟩ (100, 100, 100) 0 0 0 =
      some (0, 0, 0) ∧
    some ((0, 0, 0) : Color) ≠ some ((100, 100, 100) : Color) :=
  ⟨rfl, by decide⟩

/-- C2: the claim says `special` reverses `[A, B, C]` to `[C, B, A]`, so the
post-`erase` remainder is `[B, A]`.  The code's `reverse` sits inside the
drain loop, producing `[C, A, B]`; `erase` does remove `C`, but the
remainder is `[A, B]`, not `[B, A]`. -/
theorem additive_special_not_exact_reverse :
    store3.special.layers.items.map Layer.name = ["C", "A", "B"] ∧
    (store3.special.erase layerA).1 = true ∧
    (store3.special.erase layerA).2.layers.items.map Layer.name =
      ["A", "B"] :=
  ⟨rfl, rfl, rfl⟩

/-- C3: the claim says `special` on an empty applied set is a guarded no-op
that raises nothing, and that index `⌊count/2⌋` is the lower-middle name for
even counts.  The code indexes `sorted(∅)[0]` and raises `IndexError`
(modelled `none`), and on `{"a","b","c","d"}` index `4 / 2 = 2` removes
`"c"` — the upper-middle name, not the lexicographically smaller middle
`"b"` promised by its own docstring. -/
theorem sequence_special_empty_raises :
    SequenceLayerStore.special ⟨∅⟩ = none ∧
    SequenceLayerStore.special ⟨{"a", "b", "c", "d"}⟩ =
      some ⟨{"a", "b", "d"}⟩ := by
  constructor
  · simp [SequenceLayerStore.special, Finset.sort_empty]
  · have hc : ({"a", "b", "c", "d"} : Finset String).card = 4 := by decide
    simp only [SequenceLayerStore.special, sorted_abcd, hc]
    norm_num [List.get?]
    decide

/-- C4: the claim says `get_color` applies the present layers in ascending
name order.  The code iterates the set of applied *names* and dereferences
`layer.name` on each string, raising `AttributeError` on any non-empty set
(modelled `none`); only the empty set returns a colour (the base). -/
theorem sequence_get_color_raises_on_nonempty :
    SequenceLayerStore.get_color ⟨{"a"}⟩ (0, 0, 0) 0 0 0 = none ∧
    SequenceLayerStore.get_color ⟨∅⟩ (7, 8, 9) 0 0 0 = some (7, 8, 9) := by
  decide

/-- C5: the claim says that with the invert flag set the composited colour
gets `255 - component` applied per channel, so a held constant-`(10,10,10)`
layer under invert should yield `(245, 245, 245)`.  The code returns
`layer.apply` directly without ever consulting `special_mode` on the
held-layer path. -/
theorem set_get_color_no_inversion :
    SetLayerStore.get_color ⟨some layerRed, true⟩ (0, 0, 0) 5 6 7 =
      some (10, 10, 10) ∧
    SetLayerStore.get_color ⟨some layerRed, true⟩ (0, 0, 0) 5 6 7 ≠
      some (245, 245, 245) :=
  ⟨rfl, by decide⟩

/-- C6: the claim says erase on an empty store, or of an absent name,
returns `false` and never raises.  `SetLayerStore.erase` on an empty store
returns `True` (it always returns `True`), and `SequenceLayerStore.erase`
of an absent name raises `KeyError` (modelled `none`). -/
theorem erase_empty_and_absent_behaviour :
    (SetLayerStore.erase ⟨none, false⟩ layerA).1 = true ∧
    SequenceLayerStore.erase ⟨∅⟩ layerA = none := by
  refine ⟨rfl, ?_⟩
  decide

/-- C7: the claim says `get_color` is a pure state-preserving function in
every state.  In the state (no held layer, invert flag set)
`SetLayerStore.get_color` executes the incomplete assignment
`self.layer = ` of line 76 — a mutation of the held-layer slot that does not
even parse — so the call fails (modelled `none`) instead of purely
returning a colour. -/
theorem set_get_color_broken_branch :
    SetLayerStore.get_color ⟨none, true⟩ (50, 60, 70) 1 2 3 = none :=
  rfl

/-- C8: the claim says `AdditiveLayerStore` is constructible with any
positive capacity.  `__init__` evaluates the unbound name `capacity` (the
parameter is `max_layers`) and raises `NameError` on every construction
(modelled `none`); the full-store `add` rejection itself does return
`False` without change. -/
theorem additive_init_name_error :
    AdditiveLayerStore.init 3 = none ∧
    AdditiveLayerStore.add store3 layerRed = some (false, store3) :=
  ⟨rfl, rfl⟩

/-- C9: the claim says `special` twice restores the original sequence
exactly.  Starting from `[A, B, C]`, two `special` calls produce
`[B, C, A]`, not `[A, B, C]`. -/
theorem additive_special_twice_not_identity :
    store3.special.special.layers.items.map Layer.name = ["B", "C", "A"] ∧
    store3.layers.items.map Layer.name = ["A", "B", "C"] ∧
    (["B", "C", "A"] : List String) ≠ ["A", "B", "C"] :=
  ⟨rfl, rfl, by decide⟩

/-- C10: for `SequenceLayerStore`, adding a layer whose name is not applied
and then erasing it returns `true` both times and restores the applied-name
set exactly. -/
theorem sequence_add_erase_roundtrip (s : SequenceLayerStore) (layer : Layer)
    (h : layer.name ∉ s.applied_layers) :
    (s.add layer).1 = true ∧ (s.add layer).2.erase layer = some (true, s) := by
  obtain ⟨t⟩ := s
  simp only [SequenceLayerStore.add] at *
  rw [if_pos h]
  refine ⟨rfl, ?_⟩
  simp [SequenceLayerStore.erase, Finset.erase_insert h]

/-- Witness for C10 at the empty store and the layer named "A". -/
theorem sequence_add_erase_roundtrip_witness :
    ((SequenceLayerStore.init).add layerA).1 = true ∧
    ((SequenceLayerStore.init).add layerA).2.erase layerA =
      some (true, SequenceLayerStore.init) :=
  sequence_add_erase_roundtrip SequenceLayerStore.init layerA (by decide)
